import Mathlib

/-!
# Base chain parameters (`src/chainparamsbase.cpp`)

A shallow embedding of the base-parameter registry: the closed enumeration of
chains, the two-field parameter record, the global selected-network cell and
the signet data-directory derivation.

Conventions of the embedding:

* A `std::string` is a sequence of `char`s. It is embedded as a Lean `String`
  whose `Char`s each stand for one C++ `char`; length, comparison,
  concatenation and `substr` then act position by position exactly as in C++.
* The two process-wide objects `gArgs` and `globalChainBaseParams` are the two
  fields of `World`; every function of the file takes the world and returns it
  next to its result.
* A failed `assert` and a thrown `std::out_of_range` end the call:
  functions return `Except Fault _`.
-/

namespace ChainParamsBase

/-- The ways a call can end without a result. -/
inductive Fault where
  -- a failed `assert(...)`: the process is aborted
  | assertion
  -- the exception `std::out_of_range` thrown by `std::string::substr`
  | out_of_range
  deriving DecidableEq, Repr

/-- The enumeration `ChainType` switched over by `CreateBaseChainParams`. -/
inductive ChainType where
  | MAIN
  | TESTNET
  | TESTNET4
  | SIGNET
  | REGTEST
  deriving DecidableEq, Repr

/-- The record built by `std::make_unique<CBaseChainParams>(data_dir, rpc_port)`:
the class itself is declared in `chainparamsbase.h`; its two constructor
arguments are the two fields the specification names. -/
structure CBaseChainParams where
  data_directory : String
  rpc_port : Nat
  deriving DecidableEq, Repr

/-- Modelled from the spec: the configuration source `ArgsManager`
(`common/args.h`) is not part of the source tree. It holds string option
values per named settings section, and the section that lookups are
currently scoped to. -/
structure ArgsManager where
  -- value of an option in a section: `m_settings sect name`
  m_settings : String → String → Option String
  -- the section selected by the last `SelectConfigNetwork`
  m_network : String

/-- Modelled from the spec: `GetArg(name, default)` "returns a string option
value or a default"; the lookup is resolved against the selected section. -/
def ArgsManager.GetArg (a : ArgsManager) (strArg strDefault : String) : String :=
  match a.m_settings a.m_network strArg with
  | some v => v
  | none => strDefault

/-- Modelled from the spec: `SelectConfigNetwork(name)` "scopes subsequent
option lookups to a named section" and changes nothing else. -/
def ArgsManager.SelectConfigNetwork (a : ArgsManager) (network : String) : ArgsManager :=
  { a with m_network := network }

/-- The process-wide state the file reads and writes: the configuration
object `gArgs` and the cell `static std::unique_ptr<CBaseChainParams>
globalChainBaseParams` (`none` is the null pointer). -/
structure World where
  gArgs : ArgsManager
  globalChainBaseParams : Option CBaseChainParams

/-- The state at process start for a given configuration: a static
`unique_ptr` starts out null. -/
def World.initial (a : ArgsManager) : World :=
  { gArgs := a, globalChainBaseParams := none }

/-- The call `s.substr(pos, count)` of `std::string`: throws
`std::out_of_range` when `pos > size()`, otherwise the characters
`[pos, pos + min(count, size() - pos))`. -/
def substr (s : String) (pos count : Nat) : Except Fault String :=
  if pos > s.length then .error Fault.out_of_range
  else .ok (String.mk ((s.data.drop pos).take count))

/-- The constant `default_signet_challenge` of `GetSignetDataDir`. -/
def default_signet_challenge : String :=
  "512103ad5e0edad18cb1f0fc0d28a3d4f1f3e445640337489abb10404f2d1e086be430210359ef5021964fe22d6f8e05b2463c9540ce96883fe3b278760f048f5189f2e6c452ae"

/-- The accessor `BaseParams()`: `assert(globalChainBaseParams)` and then the
record the cell points to. -/
def BaseParams (w : World) : Except Fault (CBaseChainParams × World) :=
  match w.globalChainBaseParams with
  | none => .error Fault.assertion
  | some p => .ok (p, w)

/-- The function `GetSignetDataDir()`. -/
def GetSignetDataDir (w : World) : Except Fault (String × World) :=
  let base_data_dir : String := "signet"
  let signet_challenge : String := w.gArgs.GetArg "-signetchallenge" ""
  if ¬ signet_challenge.length = 0 ∧ signet_challenge ≠ default_signet_challenge then
    match substr signet_challenge 0 16 with
    | .error e => .error e
    | .ok data_dir_suffix => .ok (base_data_dir ++ "_" ++ data_dir_suffix, w)
  else
    .ok (base_data_dir, w)

/-- The function `CreateBaseChainParams(chain)`: the `switch` over the five
cases, in source order, followed by `assert(false)`. -/
def CreateBaseChainParams (chain : ChainType) (w : World) :
    Except Fault (CBaseChainParams × World) :=
  if chain = ChainType.MAIN then
    .ok ({ data_directory := "", rpc_port := 8332 }, w)
  else if chain = ChainType.TESTNET then
    .ok ({ data_directory := "testnet3", rpc_port := 18332 }, w)
  else if chain = ChainType.TESTNET4 then
    .ok ({ data_directory := "testnet4", rpc_port := 48332 }, w)
  else if chain = ChainType.SIGNET then
    match GetSignetDataDir w with
    | .error e => .error e
    | .ok (dir, w1) => .ok ({ data_directory := dir, rpc_port := 38332 }, w1)
  else if chain = ChainType.REGTEST then
    .ok ({ data_directory := "regtest", rpc_port := 18443 }, w)
  else
    .error Fault.assertion

/-- The function `SelectBaseParams(chain)`: first
`gArgs.SelectConfigNetwork(ChainTypeToString(chain))`, then
`globalChainBaseParams = CreateBaseChainParams(chain)`. The helper
`ChainTypeToString` (`util/chaintype.h`) is not part of the source tree and
is a parameter. -/
def SelectBaseParams (ChainTypeToString : ChainType → String) (chain : ChainType)
    (w : World) : Except Fault (Unit × World) :=
  let w1 : World :=
    { w with gArgs := w.gArgs.SelectConfigNetwork (ChainTypeToString chain) }
  match CreateBaseChainParams chain w1 with
  | .error e => .error e
  | .ok (p, w2) => .ok ((), { w2 with globalChainBaseParams := some p })

/-- One call into the core, as made by the rest of the program. -/
inductive Op where
  | select (chain : ChainType)
  | create (chain : ChainType)
  | read
  deriving DecidableEq, Repr

/-- Perform one call and keep the state it leaves; a fault ends the process. -/
def step (ChainTypeToString : ChainType → String) (op : Op) (w : World) :
    Except Fault World :=
  match op with
  | Op.select chain =>
    match SelectBaseParams ChainTypeToString chain w with
    | .error e => .error e
    | .ok (_, w1) => .ok w1
  | Op.create chain =>
    match CreateBaseChainParams chain w with
    | .error e => .error e
    | .ok (_, w1) => .ok w1
  | Op.read =>
    match BaseParams w with
    | .error e => .error e
    | .ok (_, w1) => .ok w1

/-- Perform a sequence of calls, first to last. -/
def run (ChainTypeToString : ChainType → String) : List Op → World → Except Fault World
  | [], w => .ok w
  | op :: ops, w =>
    match step ChainTypeToString op w with
    | .error e => .error e
    | .ok w1 => run ChainTypeToString ops w1

/-- The section names used when evaluating on concrete inputs: the values
that the help texts of `SetupChainParamsBaseOptions` give for `-chain=`
(`main`, `test`, `testnet4`, `signet`, `regtest`). -/
def chainName : ChainType → String
  | ChainType.MAIN => "main"
  | ChainType.TESTNET => "test"
  | ChainType.TESTNET4 => "testnet4"
  | ChainType.SIGNET => "signet"
  | ChainType.REGTEST => "regtest"

/-- A configuration in which `-signetchallenge` has the given value in every
section. -/
def argsWithChallenge (challenge : Option String) : ArgsManager :=
  { m_settings := fun _ name => if name = "-signetchallenge" then challenge else none,
    m_network := "" }

/-- A configuration with one `-signetchallenge` under `[main]` and another
under `[signet]`, currently scoped to `main`. -/
def argsTwoSections : ArgsManager :=
  { m_settings := fun sect name =>
      if name = "-signetchallenge" then
        (if sect = "signet" then some "bbbbbbbbbbbbbbbbbbbb"
         else if sect = "main" then some "aaaaaaaaaaaaaaaaaaaa" else none)
      else none,
    m_network := "main" }

/-! ## Helper lemmas -/

theorem substr_zero (s : String) (n : Nat) :
    substr s 0 n = .ok (String.mk (s.data.take n)) := by
  simp [substr]

theorem GetSignetDataDir_eq (w : World) :
    GetSignetDataDir w =
      .ok (if ¬ (w.gArgs.GetArg "-signetchallenge" "").length = 0 ∧
              w.gArgs.GetArg "-signetchallenge" "" ≠ default_signet_challenge
            then "signet" ++ "_" ++ String.mk ((w.gArgs.GetArg "-signetchallenge" "").data.take 16)
            else "signet", w) := by
  unfold GetSignetDataDir
  simp only [substr_zero]
  split <;> rfl

/-- The record returned by `CreateBaseChainParams` is determined by the chain
and the configuration alone, and the world is handed back as it was. -/
theorem CreateBaseChainParams_args (chain : ChainType) (a : ArgsManager) :
    ∃ p : CBaseChainParams, ∀ cell : Option CBaseChainParams,
      CreateBaseChainParams chain { gArgs := a, globalChainBaseParams := cell }
        = .ok (p, { gArgs := a, globalChainBaseParams := cell }) := by
  cases chain
  case SIGNET =>
    refine ⟨{ data_directory :=
                if ¬ (a.GetArg "-signetchallenge" "").length = 0 ∧
                    a.GetArg "-signetchallenge" "" ≠ default_signet_challenge
                then "signet" ++ "_" ++ String.mk ((a.GetArg "-signetchallenge" "").data.take 16)
                else "signet",
              rpc_port := 38332 }, fun cell => ?_⟩
    simp [CreateBaseChainParams, GetSignetDataDir_eq]
  all_goals exact ⟨_, fun cell => by simp [CreateBaseChainParams]; rfl⟩

theorem CreateBaseChainParams_ok (chain : ChainType) (w : World) :
    ∃ p : CBaseChainParams, CreateBaseChainParams chain w = .ok (p, w) := by
  obtain ⟨p, hp⟩ := CreateBaseChainParams_args chain w.gArgs
  exact ⟨p, hp w.globalChainBaseParams⟩

/-- What `SelectBaseParams` leaves behind: the configuration scoped to the
chain's section, and the cell holding the record computed there. -/
theorem SelectBaseParams_eq (n : ChainType → String) (chain : ChainType) (w : World) :
    ∃ p : CBaseChainParams,
      (∀ cell : Option CBaseChainParams,
        CreateBaseChainParams chain
            { gArgs := w.gArgs.SelectConfigNetwork (n chain), globalChainBaseParams := cell }
          = .ok (p, { gArgs := w.gArgs.SelectConfigNetwork (n chain),
                      globalChainBaseParams := cell })) ∧
      SelectBaseParams n chain w
        = .ok ((), { gArgs := w.gArgs.SelectConfigNetwork (n chain),
                     globalChainBaseParams := some p }) := by
  obtain ⟨p, hp⟩ := CreateBaseChainParams_args chain (w.gArgs.SelectConfigNetwork (n chain))
  refine ⟨p, hp, ?_⟩
  simp only [SelectBaseParams, hp]

theorem step_select (n : ChainType → String) (chain : ChainType) (w : World) :
    ∃ p : CBaseChainParams,
      (∀ cell : Option CBaseChainParams,
        CreateBaseChainParams chain
            { gArgs := w.gArgs.SelectConfigNetwork (n chain), globalChainBaseParams := cell }
          = .ok (p, { gArgs := w.gArgs.SelectConfigNetwork (n chain),
                      globalChainBaseParams := cell })) ∧
      step n (Op.select chain) w
        = .ok { gArgs := w.gArgs.SelectConfigNetwork (n chain),
                globalChainBaseParams := some p } := by
  obtain ⟨p, hp, hsel⟩ := SelectBaseParams_eq n chain w
  exact ⟨p, hp, by simp only [step, hsel]⟩

theorem step_create (n : ChainType → String) (chain : ChainType) (w : World) :
    step n (Op.create chain) w = .ok w := by
  obtain ⟨p, hp⟩ := CreateBaseChainParams_ok chain w
  simp only [step, hp]

theorem step_read_set (n : ChainType → String) (w : World) (p : CBaseChainParams)
    (h : w.globalChainBaseParams = some p) : step n Op.read w = .ok w := by
  simp only [step, BaseParams, h]

theorem step_read_unset (n : ChainType → String) (w : World)
    (h : w.globalChainBaseParams = none) : step n Op.read w = .error Fault.assertion := by
  simp only [step, BaseParams, h]

/-- One call either leaves the cell as it was or is a `SelectBaseParams`
that leaves it set. -/
theorem step_cell (n : ChainType → String) (op : Op) (w w1 : World)
    (h : step n op w = .ok w1) :
    w1.globalChainBaseParams = w.globalChainBaseParams ∨
      ((∃ chain, op = Op.select chain) ∧ ∃ p, w1.globalChainBaseParams = some p) := by
  cases op with
  | select chain =>
    obtain ⟨p, -, hs⟩ := step_select n chain w
    rw [hs] at h
    cases h
    exact Or.inr ⟨⟨chain, rfl⟩, p, rfl⟩
  | create chain =>
    rw [step_create] at h
    cases h
    exact Or.inl rfl
  | read =>
    cases hc : w.globalChainBaseParams with
    | none => rw [step_read_unset n w hc] at h; cases h
    | some p => rw [step_read_set n w p hc] at h; cases h; exact Or.inl hc

/-- From a state whose cell is set, every sequence of calls runs to the end
and leaves the cell set. -/
theorem run_from_set (n : ChainType → String) (ops : List Op) :
    ∀ (w : World) (p : CBaseChainParams), w.globalChainBaseParams = some p →
      ∃ (w1 : World) (q : CBaseChainParams),
        run n ops w = .ok w1 ∧ w1.globalChainBaseParams = some q := by
  induction ops with
  | nil => intro w p h; exact ⟨w, p, rfl, h⟩
  | cons op ops ih =>
    intro w p h
    cases op with
    | select chain =>
      obtain ⟨q, -, hs⟩ := step_select n chain w
      obtain ⟨w1, r, hr, hc⟩ := ih
        { gArgs := w.gArgs.SelectConfigNetwork (n chain), globalChainBaseParams := some q } q rfl
      exact ⟨w1, r, by simp only [run, hs, hr], hc⟩
    | create chain =>
      obtain ⟨w1, r, hr, hc⟩ := ih w p h
      exact ⟨w1, r, by simp only [run, step_create, hr], hc⟩
    | read =>
      obtain ⟨w1, r, hr, hc⟩ := ih w p h
      exact ⟨w1, r, by simp only [run, step_read_set n w p h, hr], hc⟩

/-- After a completed run the cell is unset exactly when it was unset at the
start and the run holds no `SelectBaseParams`. -/
theorem run_cell_none_iff (n : ChainType → String) (ops : List Op) :
    ∀ (w w1 : World), run n ops w = .ok w1 →
      (w1.globalChainBaseParams = none ↔
        w.globalChainBaseParams = none ∧ ∀ chain, Op.select chain ∉ ops) := by
  induction ops with
  | nil =>
    intro w w1 h
    simp only [run] at h
    cases h
    simp
  | cons op ops ih =>
    intro w w1 h
    cases op with
    | select chain =>
      obtain ⟨q, -, hs⟩ := step_select n chain w
      simp only [run, hs] at h
      obtain ⟨w2, r, hr, hc⟩ := run_from_set n ops
        { gArgs := w.gArgs.SelectConfigNetwork (n chain), globalChainBaseParams := some q } q rfl
      rw [hr] at h
      cases h
      constructor
      · intro h0; rw [hc] at h0; cases h0
      · rintro ⟨-, hno⟩
        exact absurd (List.mem_cons_self _ _) (hno chain)
    | create chain =>
      simp only [run, step_create] at h
      rw [ih w w1 h]
      simp
    | read =>
      cases hc : w.globalChainBaseParams with
      | none => simp only [run, step_read_unset n w hc] at h; cases h
      | some p =>
        simp only [run, step_read_set n w p hc] at h
        have := ih w w1 h
        rw [hc] at this
        rw [this]
        simp

/-- A run of `SelectBaseParams` calls ending with `last` leaves the
configuration scoped to the section of `last` and the cell holding the record
computed there. -/
theorem run_selects (n : ChainType → String) (last : ChainType) (earlier : List ChainType) :
    ∀ w : World, ∃ p : CBaseChainParams,
      (∀ cell : Option CBaseChainParams,
        CreateBaseChainParams last
            { gArgs := w.gArgs.SelectConfigNetwork (n last), globalChainBaseParams := cell }
          = .ok (p, { gArgs := w.gArgs.SelectConfigNetwork (n last),
                      globalChainBaseParams := cell })) ∧
      run n ((earlier ++ [last]).map Op.select) w
        = .ok { gArgs := w.gArgs.SelectConfigNetwork (n last),
                globalChainBaseParams := some p } := by
  induction earlier with
  | nil =>
    intro w
    obtain ⟨p, hp, hs⟩ := step_select n last w
    exact ⟨p, hp, by simp only [List.nil_append, List.map, run, hs]⟩
  | cons c cs ih =>
    intro w
    obtain ⟨q, -, hs⟩ := step_select n c w
    obtain ⟨p, hp, hr⟩ := ih
      { gArgs := w.gArgs.SelectConfigNetwork (n c), globalChainBaseParams := some q }
    refine ⟨p, hp, ?_⟩
    simp only [List.cons_append, List.map, run, hs]
    exact hr

/-! ## Helper lemmas on the signet directory name -/

theorem string_length_eq_zero (s : String) : s.length = 0 ↔ s = "" := by
  cases s with
  | mk cs =>
    constructor
    · intro h
      have hcs : cs = [] := List.length_eq_zero.mp h
      subst hcs
      rfl
    · intro h
      rw [h]
      rfl

theorem string_append_left_cancel (p x y : String) (h : p ++ x = p ++ y) : x = y := by
  have hd := congrArg String.data h
  simp only [String.data_append] at hd
  exact String.ext (List.append_cancel_left hd)

/-- The two outcomes of `GetSignetDataDir`, by the challenge that `GetArg`
hands over. -/
theorem GetSignetDataDir_cases (w : World) (c : String)
    (hc : w.gArgs.GetArg "-signetchallenge" "" = c) :
    ((c = "" ∨ c = default_signet_challenge) ∧ GetSignetDataDir w = .ok ("signet", w)) ∨
    ((c ≠ "" ∧ c ≠ default_signet_challenge) ∧
      GetSignetDataDir w = .ok ("signet_" ++ c.take 16, w)) := by
  rw [GetSignetDataDir_eq, hc, String.take_eq]
  by_cases h0 : c = ""
  · left
    refine ⟨Or.inl h0, ?_⟩
    rw [if_neg]
    rintro ⟨hlen, -⟩
    exact hlen ((string_length_eq_zero c).mpr h0)
  · by_cases hd : c = default_signet_challenge
    · left
      refine ⟨Or.inr hd, ?_⟩
      rw [if_neg]
      rintro ⟨-, hne⟩
      exact hne hd
    · right
      refine ⟨⟨h0, hd⟩, ?_⟩
      rw [if_pos ⟨fun hl => h0 ((string_length_eq_zero c).mp hl), hd⟩]
      rfl

theorem signet_suffix_length (x : String) : ("signet_" ++ x).length = 7 + x.length := by
  rw [String.length_append]
  rfl

theorem take16_length_le (c : String) : (c.take 16).length ≤ 16 := by
  rw [String.take_eq, String.length_mk, List.length_take]
  exact Nat.min_le_left _ _

theorem take16_length_pos (c : String) (h : c ≠ "") : 1 ≤ (c.take 16).length := by
  rw [String.take_eq, String.length_mk, List.length_take]
  have hl : c.length ≠ 0 := fun h0 => h ((string_length_eq_zero c).mp h0)
  have hl1 : 1 ≤ c.data.length := Nat.pos_of_ne_zero hl
  exact Nat.le_min.mpr ⟨by decide, hl1⟩

theorem take16_of_short (c : String) (h : c.length < 16) : c.take 16 = c := by
  rw [String.take_eq]
  apply String.ext
  exact List.take_of_length_le (Nat.le_of_lt h)

theorem signet_suffix_ne_bare (x : String) : "signet_" ++ x ≠ "signet" := by
  intro h
  have hl := congrArg String.length h
  rw [signet_suffix_length] at hl
  have h6 : "signet".length = 6 := rfl
  omega

theorem default_signet_challenge_length : default_signet_challenge.length = 142 := by
  rfl

theorem signet_suffix_head (x : String) :
    ("signet_" ++ x).data.head? = some 's' := rfl

theorem CreateBaseChainParams_signet_of (w : World) (d : String)
    (h : GetSignetDataDir w = .ok (d, w)) :
    CreateBaseChainParams ChainType.SIGNET w
      = .ok ({ data_directory := d, rpc_port := 38332 }, w) := by
  simp [CreateBaseChainParams, h]

/-- The record of each chain: the four constant ones, and for signet the
port with the two shapes of the directory name. -/
theorem CreateBaseChainParams_cases (chain : ChainType) (w : World) (c : String)
    (hc : w.gArgs.GetArg "-signetchallenge" "" = c) :
    ∃ p : CBaseChainParams, CreateBaseChainParams chain w = .ok (p, w) ∧
      ((chain = ChainType.MAIN ∧ p = { data_directory := "", rpc_port := 8332 }) ∨
       (chain = ChainType.TESTNET ∧ p = { data_directory := "testnet3", rpc_port := 18332 }) ∨
       (chain = ChainType.TESTNET4 ∧ p = { data_directory := "testnet4", rpc_port := 48332 }) ∨
       (chain = ChainType.REGTEST ∧ p = { data_directory := "regtest", rpc_port := 18443 }) ∨
       (chain = ChainType.SIGNET ∧ p.rpc_port = 38332 ∧
         (((c = "" ∨ c = default_signet_challenge) ∧ p.data_directory = "signet") ∨
          ((c ≠ "" ∧ c ≠ default_signet_challenge) ∧
            p.data_directory = "signet_" ++ c.take 16)))) := by
  cases chain
  case MAIN => exact ⟨_, by simp [CreateBaseChainParams], Or.inl ⟨rfl, rfl⟩⟩
  case TESTNET =>
    exact ⟨_, by simp [CreateBaseChainParams], Or.inr (Or.inl ⟨rfl, rfl⟩)⟩
  case TESTNET4 =>
    exact ⟨_, by simp [CreateBaseChainParams], Or.inr (Or.inr (Or.inl ⟨rfl, rfl⟩))⟩
  case REGTEST =>
    exact ⟨_, by simp [CreateBaseChainParams],
      Or.inr (Or.inr (Or.inr (Or.inl ⟨rfl, rfl⟩)))⟩
  case SIGNET =>
    rcases GetSignetDataDir_cases w c hc with ⟨hd, e⟩ | ⟨hn, e⟩
    · exact ⟨_, CreateBaseChainParams_signet_of w _ e,
        Or.inr (Or.inr (Or.inr (Or.inr ⟨rfl, rfl, Or.inl ⟨hd, rfl⟩⟩)))⟩
    · exact ⟨_, CreateBaseChainParams_signet_of w _ e,
        Or.inr (Or.inr (Or.inr (Or.inr ⟨rfl, rfl, Or.inr ⟨hn, rfl⟩⟩)))⟩

/-! ## The fixed chains and signet -/

/-- C1: whatever the configuration holds, `CreateBaseChainParams` returns
("", 8332) for MAIN, ("testnet3", 18332) for TESTNET, ("testnet4", 48332)
for TESTNET4 and ("regtest", 18443) for REGTEST. -/
theorem CreateBaseChainParams_fixed_chains (w : World) :
    CreateBaseChainParams ChainType.MAIN w
        = .ok ({ data_directory := "", rpc_port := 8332 }, w) ∧
    CreateBaseChainParams ChainType.TESTNET w
        = .ok ({ data_directory := "testnet3", rpc_port := 18332 }, w) ∧
    CreateBaseChainParams ChainType.TESTNET4 w
        = .ok ({ data_directory := "testnet4", rpc_port := 48332 }, w) ∧
    CreateBaseChainParams ChainType.REGTEST w
        = .ok ({ data_directory := "regtest", rpc_port := 18443 }, w) := by
  refine ⟨?_, ?_, ?_, ?_⟩ <;> simp [CreateBaseChainParams]

/-- C2: for every configuration, `CreateBaseChainParams(SIGNET)` returns the
record whose port is 38332 and whose data directory is what
`GetSignetDataDir` returns in that configuration. -/
theorem CreateBaseChainParams_signet (w : World) :
    ∃ dir : String, GetSignetDataDir w = .ok (dir, w) ∧
      CreateBaseChainParams ChainType.SIGNET w
        = .ok ({ data_directory := dir, rpc_port := 38332 }, w) := by
  refine ⟨_, GetSignetDataDir_eq w, ?_⟩
  simp [CreateBaseChainParams, GetSignetDataDir_eq]

/-- C3: `GetSignetDataDir` returns the bare name "signet" when
`-signetchallenge` is unset, when it is empty, and when it equals the
default challenge constant. -/
theorem GetSignetDataDir_bare (w : World)
    (h : w.gArgs.m_settings w.gArgs.m_network "-signetchallenge" = none ∨
         w.gArgs.m_settings w.gArgs.m_network "-signetchallenge" = some "" ∨
         w.gArgs.m_settings w.gArgs.m_network "-signetchallenge"
           = some default_signet_challenge) :
    GetSignetDataDir w = .ok ("signet", w) := by
  rw [GetSignetDataDir_eq]
  rcases h with h | h | h <;> simp [ArgsManager.GetArg, h]

/-- The three cases of C3 on concrete configurations. -/
theorem GetSignetDataDir_bare_witness :
    GetSignetDataDir (World.initial (argsWithChallenge none))
        = .ok ("signet", World.initial (argsWithChallenge none)) ∧
    GetSignetDataDir (World.initial (argsWithChallenge (some "")))
        = .ok ("signet", World.initial (argsWithChallenge (some ""))) ∧
    GetSignetDataDir (World.initial (argsWithChallenge (some default_signet_challenge)))
        = .ok ("signet", World.initial (argsWithChallenge (some default_signet_challenge))) :=
  ⟨GetSignetDataDir_bare _ (Or.inl rfl),
   GetSignetDataDir_bare _ (Or.inr (Or.inl rfl)),
   GetSignetDataDir_bare _ (Or.inr (Or.inr rfl))⟩

/-- C4: for a `-signetchallenge` value that is neither empty nor equal to
the default constant, `GetSignetDataDir` returns "signet_" followed by the
first 16 characters of the challenge. -/
theorem GetSignetDataDir_custom (w : World) (challenge : String)
    (hset : w.gArgs.m_settings w.gArgs.m_network "-signetchallenge" = some challenge)
    (hne : challenge ≠ "") (hdef : challenge ≠ default_signet_challenge) :
    GetSignetDataDir w = .ok ("signet_" ++ challenge.take 16, w) ∧
    challenge.take 16 = String.mk (challenge.data.take 16) := by
  have hlen : ¬ challenge.length = 0 := by
    intro h0
    apply hne
    cases challenge with
    | mk cs =>
      have : cs = [] := List.length_eq_zero.mp h0
      subst this
      rfl
  refine ⟨?_, String.take_eq challenge 16⟩
  rw [GetSignetDataDir_eq, String.take_eq]
  have hget : w.gArgs.GetArg "-signetchallenge" "" = challenge := by
    simp [ArgsManager.GetArg, hset]
  rw [hget, if_pos ⟨hlen, hdef⟩]
  rfl

/-- The challenge "00" repeated nine times gives "signet_0000000000000000". -/
theorem GetSignetDataDir_custom_witness :
    GetSignetDataDir (World.initial (argsWithChallenge (some "000000000000000000")))
      = .ok ("signet_0000000000000000",
             World.initial (argsWithChallenge (some "000000000000000000"))) := by
  have h := (GetSignetDataDir_custom
    (World.initial (argsWithChallenge (some "000000000000000000")))
    "000000000000000000" rfl (by decide) (by decide)).1
  rw [h]
  rfl

/-! ## The selected-network cell -/

/-- C5: `BaseParams()` aborts exactly when the cell is unset; in a state
reached from process start the cell is unset exactly when no
`SelectBaseParams` call has been made, and after at least one such call
`BaseParams()` returns a record. -/
theorem BaseParams_aborts_iff_unset (n : ChainType → String) (a : ArgsManager)
    (ops : List Op) (w : World) (hrun : run n ops (World.initial a) = .ok w) :
    (∀ w0 : World, BaseParams w0 = .error Fault.assertion ↔ w0.globalChainBaseParams = none) ∧
    (∀ w0 : World, (∃ p, BaseParams w0 = .ok (p, w0)) ↔ w0.globalChainBaseParams ≠ none) ∧
    (w.globalChainBaseParams = none ↔ ∀ chain, Op.select chain ∉ ops) ∧
    ((∃ chain, Op.select chain ∈ ops) → ∃ p, BaseParams w = .ok (p, w)) := by
  have hiff := run_cell_none_iff n ops _ w hrun
  simp only [World.initial, true_and] at hiff
  refine ⟨?_, ?_, hiff, ?_⟩
  · intro w0
    cases h : w0.globalChainBaseParams <;> simp [BaseParams, h]
  · intro w0
    cases h : w0.globalChainBaseParams <;> simp [BaseParams, h]
  · rintro ⟨chain, hmem⟩
    cases h : w.globalChainBaseParams with
    | none => exact absurd hmem (hiff.mp h chain)
    | some p => exact ⟨p, by simp [BaseParams, h]⟩

/-- From process start, `SelectBaseParams(REGTEST)` then `BaseParams()` runs
to the end, and a further `BaseParams()` returns a record. -/
theorem BaseParams_aborts_iff_unset_witness :
    run chainName [Op.select ChainType.REGTEST, Op.read]
        (World.initial (argsWithChallenge none))
      = .ok { gArgs := (argsWithChallenge none).SelectConfigNetwork "regtest",
              globalChainBaseParams := some { data_directory := "regtest", rpc_port := 18443 } } ∧
    ∃ p, BaseParams
        { gArgs := (argsWithChallenge none).SelectConfigNetwork "regtest",
          globalChainBaseParams := some { data_directory := "regtest", rpc_port := 18443 } }
      = .ok (p, { gArgs := (argsWithChallenge none).SelectConfigNetwork "regtest",
                  globalChainBaseParams :=
                    some { data_directory := "regtest", rpc_port := 18443 } }) :=
  ⟨rfl,
   (BaseParams_aborts_iff_unset chainName (argsWithChallenge none)
      [Op.select ChainType.REGTEST, Op.read] _ rfl).2.2.2
      ⟨ChainType.REGTEST, List.mem_cons_self _ _⟩⟩

/-- C6: after any non-empty sequence of `SelectBaseParams` calls, from any
state, `BaseParams()` returns the record `CreateBaseChainParams` produces
for the chain of the last call, whatever the earlier calls and the earlier
state of the cell were; `SelectBaseParams(REGTEST)` then `BaseParams()`
gives ("regtest", 18443). -/
theorem SelectBaseParams_last_write_wins (n : ChainType → String) (w : World)
    (earlier : List ChainType) (last : ChainType) :
    (∃ (w1 : World) (p : CBaseChainParams),
      run n ((earlier ++ [last]).map Op.select) w = .ok w1 ∧
      BaseParams w1 = .ok (p, w1) ∧
      CreateBaseChainParams last w1 = .ok (p, w1) ∧
      CreateBaseChainParams last (World.initial (w.gArgs.SelectConfigNetwork (n last)))
        = .ok (p, World.initial (w.gArgs.SelectConfigNetwork (n last)))) ∧
    (∃ w1 : World,
      SelectBaseParams n ChainType.REGTEST w = .ok ((), w1) ∧
      BaseParams w1 = .ok ({ data_directory := "regtest", rpc_port := 18443 }, w1)) := by
  constructor
  · obtain ⟨p, hp, hr⟩ := run_selects n last earlier w
    exact ⟨_, p, hr, rfl, hp (some p), hp none⟩
  · obtain ⟨p, hp, hs⟩ := SelectBaseParams_eq n ChainType.REGTEST w
    refine ⟨_, hs, ?_⟩
    have h := hp none
    simp [CreateBaseChainParams] at h
    rw [← h]
    rfl

/-- C7: `SelectBaseParams(SIGNET)` stores the directory derived from the
`-signetchallenge` value seen once the configuration is scoped to the
section `ChainTypeToString(SIGNET)`, whatever section was selected before;
on a configuration with different challenges under the two sections this is
not the directory derived under the section selected before the call. -/
theorem SelectBaseParams_signet_reads_scoped_section :
    (∀ (n : ChainType → String) (settings : String → String → Option String)
        (previous : String) (cell : Option CBaseChainParams),
      ∃ dir : String,
        GetSignetDataDir
            { gArgs := { m_settings := settings, m_network := n ChainType.SIGNET },
              globalChainBaseParams := cell }
          = .ok (dir, { gArgs := { m_settings := settings, m_network := n ChainType.SIGNET },
                        globalChainBaseParams := cell }) ∧
        SelectBaseParams n ChainType.SIGNET
            { gArgs := { m_settings := settings, m_network := previous },
              globalChainBaseParams := cell }
          = .ok ((), { gArgs := { m_settings := settings, m_network := n ChainType.SIGNET },
                       globalChainBaseParams :=
                         some { data_directory := dir, rpc_port := 38332 } })) ∧
    (GetSignetDataDir (World.initial argsTwoSections)
        = .ok ("signet_aaaaaaaaaaaaaaaa", World.initial argsTwoSections) ∧
     SelectBaseParams chainName ChainType.SIGNET (World.initial argsTwoSections)
        = .ok ((), { gArgs := argsTwoSections.SelectConfigNetwork "signet",
                     globalChainBaseParams :=
                       some { data_directory := "signet_bbbbbbbbbbbbbbbb",
                              rpc_port := 38332 } })) := by
  constructor
  · intro n settings previous cell
    refine ⟨_, GetSignetDataDir_eq _, ?_⟩
    simp [SelectBaseParams, CreateBaseChainParams, GetSignetDataDir_eq,
      ArgsManager.SelectConfigNetwork]
  · exact ⟨by rfl, by rfl⟩

/-! ## Totality and frame -/

/-- C8: for each of the five chains and every configuration,
`CreateBaseChainParams` returns a record: it never reaches the trailing
`assert(false)`, and `substr(0, 16)` is in range for every string. -/
theorem CreateBaseChainParams_total (chain : ChainType) (w : World) :
    (∃ (p : CBaseChainParams) (w1 : World), CreateBaseChainParams chain w = .ok (p, w1)) ∧
    (∀ e : Fault, CreateBaseChainParams chain w ≠ .error e) ∧
    (∀ s : String, ∃ r : String, substr s 0 16 = .ok r) ∧
    (∃ (dir : String) (w1 : World), GetSignetDataDir w = .ok (dir, w1)) := by
  obtain ⟨p, hp⟩ := CreateBaseChainParams_ok chain w
  refine ⟨⟨p, w, hp⟩, ?_, fun s => ⟨_, substr_zero s 16⟩, ⟨_, w, GetSignetDataDir_eq w⟩⟩
  intro e h
  rw [hp] at h
  cases h

/-- C9: `CreateBaseChainParams` leaves the selected-network cell and the
configuration as they were, so `BaseParams()` behaves after the call as it
did before. -/
theorem CreateBaseChainParams_no_side_effect (chain : ChainType) (w : World) :
    ∃ (p : CBaseChainParams) (w1 : World),
      CreateBaseChainParams chain w = .ok (p, w1) ∧
      w1.globalChainBaseParams = w.globalChainBaseParams ∧
      w1.gArgs = w.gArgs ∧
      w1 = w ∧
      BaseParams w1 = BaseParams w := by
  obtain ⟨p, hp⟩ := CreateBaseChainParams_ok chain w
  exact ⟨p, w, hp, rfl, rfl, rfl, rfl⟩

/-- C10: once the cell is set, every sequence of calls of the core runs to
its end and leaves the cell set; a single call either leaves the cell as it
was or is a `SelectBaseParams` that leaves it set. -/
theorem cell_never_reset (n : ChainType → String) (w : World) (ops : List Op)
    (hset : w.globalChainBaseParams ≠ none) :
    (∃ w1 : World, run n ops w = .ok w1 ∧ w1.globalChainBaseParams ≠ none) ∧
    (∀ (op : Op) (w0 w1 : World), step n op w0 = .ok w1 →
      w1.globalChainBaseParams = w0.globalChainBaseParams ∨
        ((∃ chain, op = Op.select chain) ∧ w1.globalChainBaseParams ≠ none)) := by
  constructor
  · cases h : w.globalChainBaseParams with
    | none => exact absurd h hset
    | some p =>
      obtain ⟨w1, q, hr, hq⟩ := run_from_set n ops w p h
      exact ⟨w1, hr, by simp [hq]⟩
  · intro op w0 w1 h
    rcases step_cell n op w0 w1 h with h1 | ⟨h1, q, hq⟩
    · exact Or.inl h1
    · exact Or.inr ⟨h1, by simp [hq]⟩

/-- A set cell stays set through a `CreateBaseChainParams`, a `BaseParams`
and a re-selection. -/
theorem cell_never_reset_witness :
    ∃ w1 : World,
      run chainName [Op.create ChainType.SIGNET, Op.read, Op.select ChainType.TESTNET4]
          { gArgs := argsTwoSections,
            globalChainBaseParams := some { data_directory := "regtest", rpc_port := 18443 } }
        = .ok w1 ∧
      w1.globalChainBaseParams ≠ none :=
  (cell_never_reset chainName
    { gArgs := argsTwoSections,
      globalChainBaseParams := some { data_directory := "regtest", rpc_port := 18443 } }
    [Op.create ChainType.SIGNET, Op.read, Op.select ChainType.TESTNET4]
    (by simp)).1

/-! ## Re-selection, collisions and idempotence -/

/-- C11 (as stated, refuted): with the cell set by `SelectBaseParams(MAIN)`,
a further `SelectBaseParams(REGTEST)` makes `BaseParams()` return
("regtest", 18443) where it returned ("", 8332) before. -/
theorem reselection_replaces_record :
    SelectBaseParams chainName ChainType.MAIN (World.initial (argsWithChallenge none))
      = .ok ((), { gArgs := (argsWithChallenge none).SelectConfigNetwork "main",
                   globalChainBaseParams := some { data_directory := "", rpc_port := 8332 } }) ∧
    BaseParams { gArgs := (argsWithChallenge none).SelectConfigNetwork "main",
                 globalChainBaseParams := some { data_directory := "", rpc_port := 8332 } }
      = .ok ({ data_directory := "", rpc_port := 8332 },
             { gArgs := (argsWithChallenge none).SelectConfigNetwork "main",
               globalChainBaseParams := some { data_directory := "", rpc_port := 8332 } }) ∧
    step chainName (Op.select ChainType.REGTEST)
        { gArgs := (argsWithChallenge none).SelectConfigNetwork "main",
          globalChainBaseParams := some { data_directory := "", rpc_port := 8332 } }
      = .ok { gArgs := (argsWithChallenge none).SelectConfigNetwork "regtest",
              globalChainBaseParams :=
                some { data_directory := "regtest", rpc_port := 18443 } } ∧
    BaseParams { gArgs := (argsWithChallenge none).SelectConfigNetwork "regtest",
                 globalChainBaseParams :=
                   some { data_directory := "regtest", rpc_port := 18443 } }
      = .ok ({ data_directory := "regtest", rpc_port := 18443 },
             { gArgs := (argsWithChallenge none).SelectConfigNetwork "regtest",
               globalChainBaseParams :=
                 some { data_directory := "regtest", rpc_port := 18443 } }) ∧
    ("regtest" : String) ≠ "" ∧ (18443 : Nat) ≠ 8332 :=
  ⟨rfl, rfl, rfl, rfl, by decide, by decide⟩

/-- C11 (amended): with the cell set, a `CreateBaseChainParams` or a
`BaseParams` call leaves `BaseParams()` returning the same record as before;
a further `SelectBaseParams(chain)` completes and makes `BaseParams()` return
the record `CreateBaseChainParams` produces for `chain`. -/
theorem record_changes_only_by_selection (n : ChainType → String) (w : World)
    (p : CBaseChainParams) (op : Op) (hset : w.globalChainBaseParams = some p) :
    BaseParams w = .ok (p, w) ∧
    ∃ (w1 : World) (q : CBaseChainParams),
      step n op w = .ok w1 ∧ BaseParams w1 = .ok (q, w1) ∧
      ((op = Op.read ∨ ∃ chain, op = Op.create chain) ∧ q = p ∧ w1 = w ∨
       ∃ chain, op = Op.select chain ∧ CreateBaseChainParams chain w1 = .ok (q, w1)) := by
  have hb : BaseParams w = .ok (p, w) := by simp only [BaseParams, hset]
  refine ⟨hb, ?_⟩
  cases op with
  | select chain =>
    obtain ⟨q, hq, hs⟩ := step_select n chain w
    exact ⟨_, q, hs, rfl, Or.inr ⟨chain, rfl, hq (some q)⟩⟩
  | create chain =>
    exact ⟨w, p, step_create n chain w, hb, Or.inl ⟨Or.inr ⟨chain, rfl⟩, rfl, rfl⟩⟩
  | read =>
    exact ⟨w, p, step_read_set n w p hset, hb, Or.inl ⟨Or.inl rfl, rfl, rfl⟩⟩

/-- With the cell holding the MAIN record, a `CreateBaseChainParams(SIGNET)`
leaves `BaseParams()` as it was. -/
theorem record_changes_only_by_selection_witness :
    BaseParams { gArgs := argsTwoSections,
                 globalChainBaseParams := some { data_directory := "", rpc_port := 8332 } }
      = .ok ({ data_directory := "", rpc_port := 8332 },
             { gArgs := argsTwoSections,
               globalChainBaseParams := some { data_directory := "", rpc_port := 8332 } }) :=
  (record_changes_only_by_selection chainName
    { gArgs := argsTwoSections,
      globalChainBaseParams := some { data_directory := "", rpc_port := 8332 } }
    { data_directory := "", rpc_port := 8332 } (Op.create ChainType.SIGNET) rfl).1

/-- C12 (as stated, refuted): the two different custom challenges
"0000000000000000aa" and "0000000000000000bb" get one and the same directory
name "signet_0000000000000000". -/
theorem distinct_challenges_share_directory :
    ("0000000000000000aa" : String) ≠ "0000000000000000bb" ∧
    GetSignetDataDir (World.initial (argsWithChallenge (some "0000000000000000aa")))
      = .ok ("signet_0000000000000000",
             World.initial (argsWithChallenge (some "0000000000000000aa"))) ∧
    GetSignetDataDir (World.initial (argsWithChallenge (some "0000000000000000bb")))
      = .ok ("signet_0000000000000000",
             World.initial (argsWithChallenge (some "0000000000000000bb"))) :=
  ⟨by decide, rfl, rfl⟩

/-- C12 (amended): two challenge values get the same directory name exactly
when both are empty or the default constant, or both are custom and agree
on their first 16 characters; in every other case the names differ. -/
theorem GetSignetDataDir_same_directory_iff (w1 w2 : World) (c1 c2 : String)
    (h1 : w1.gArgs.GetArg "-signetchallenge" "" = c1)
    (h2 : w2.gArgs.GetArg "-signetchallenge" "" = c2) :
    ∃ d1 d2 : String,
      GetSignetDataDir w1 = .ok (d1, w1) ∧ GetSignetDataDir w2 = .ok (d2, w2) ∧
      (d1 = d2 ↔
        ((c1 = "" ∨ c1 = default_signet_challenge) ∧
          (c2 = "" ∨ c2 = default_signet_challenge)) ∨
        ((c1 ≠ "" ∧ c1 ≠ default_signet_challenge) ∧
          (c2 ≠ "" ∧ c2 ≠ default_signet_challenge) ∧ c1.take 16 = c2.take 16)) := by
  rcases GetSignetDataDir_cases w1 c1 h1 with ⟨hd1, e1⟩ | ⟨hn1, e1⟩ <;>
  rcases GetSignetDataDir_cases w2 c2 h2 with ⟨hd2, e2⟩ | ⟨hn2, e2⟩
  · refine ⟨_, _, e1, e2, ?_⟩
    exact ⟨fun _ => Or.inl ⟨hd1, hd2⟩, fun _ => rfl⟩
  · refine ⟨_, _, e1, e2, ?_⟩
    constructor
    · intro h
      exact absurd h.symm (signet_suffix_ne_bare _)
    · rintro (⟨-, hd2⟩ | ⟨⟨hne, hnd⟩, -, -⟩)
      · rcases hd2 with h | h
        · exact absurd h hn2.1
        · exact absurd h hn2.2
      · rcases hd1 with h | h
        · exact absurd h hne
        · exact absurd h hnd
  · refine ⟨_, _, e1, e2, ?_⟩
    constructor
    · intro h
      exact absurd h (signet_suffix_ne_bare _)
    · rintro (⟨hd1, -⟩ | ⟨-, ⟨hne, hnd⟩, -⟩)
      · rcases hd1 with h | h
        · exact absurd h hn1.1
        · exact absurd h hn1.2
      · rcases hd2 with h | h
        · exact absurd h hne
        · exact absurd h hnd
  · refine ⟨_, _, e1, e2, ?_⟩
    constructor
    · intro h
      exact Or.inr ⟨hn1, hn2, string_append_left_cancel _ _ _ h⟩
    · rintro (⟨hd1, -⟩ | ⟨-, -, ht⟩)
      · rcases hd1 with h | h
        · exact absurd h hn1.1
        · exact absurd h hn1.2
      · rw [ht]

/-- The default challenge and a custom one that starts with the same 16
characters get two directory names, of which the two are told apart. -/
theorem GetSignetDataDir_same_directory_iff_witness :
    ∃ d1 d2 : String,
      GetSignetDataDir (World.initial (argsWithChallenge (some default_signet_challenge)))
        = .ok (d1, World.initial (argsWithChallenge (some default_signet_challenge))) ∧
      GetSignetDataDir (World.initial (argsWithChallenge (some "512103ad5e0edad1ff")))
        = .ok (d2, World.initial (argsWithChallenge (some "512103ad5e0edad1ff"))) ∧
      (d1 = d2 ↔
        ((default_signet_challenge = "" ∨
            default_signet_challenge = default_signet_challenge) ∧
          (("512103ad5e0edad1ff" : String) = "" ∨
            "512103ad5e0edad1ff" = default_signet_challenge)) ∨
        ((default_signet_challenge ≠ "" ∧
            default_signet_challenge ≠ default_signet_challenge) ∧
          (("512103ad5e0edad1ff" : String) ≠ "" ∧
            "512103ad5e0edad1ff" ≠ default_signet_challenge) ∧
          default_signet_challenge.take 16 = ("512103ad5e0edad1ff" : String).take 16)) :=
  GetSignetDataDir_same_directory_iff
    (World.initial (argsWithChallenge (some default_signet_challenge)))
    (World.initial (argsWithChallenge (some "512103ad5e0edad1ff")))
    default_signet_challenge "512103ad5e0edad1ff" rfl rfl

/-- C13: two calls of `CreateBaseChainParams` in succession with the same
chain return records with the same data directory and the same port. -/
theorem CreateBaseChainParams_twice (chain : ChainType) (w : World) :
    ∃ (p1 p2 : CBaseChainParams) (w1 w2 : World),
      CreateBaseChainParams chain w = .ok (p1, w1) ∧
      CreateBaseChainParams chain w1 = .ok (p2, w2) ∧
      p1.data_directory = p2.data_directory ∧ p1.rpc_port = p2.rpc_port := by
  obtain ⟨p, hp⟩ := CreateBaseChainParams_ok chain w
  exact ⟨p, p, w, w, hp, hp, rfl, rfl⟩

/-- C14: a non-empty challenge of fewer than 16 characters differs from the
default constant and is used in full: the directory name is "signet_"
followed by the whole challenge, nothing added. -/
theorem GetSignetDataDir_short_challenge (w : World) (challenge : String)
    (hset : w.gArgs.m_settings w.gArgs.m_network "-signetchallenge" = some challenge)
    (hne : challenge ≠ "") (hshort : challenge.length < 16) :
    challenge ≠ default_signet_challenge ∧
    GetSignetDataDir w = .ok ("signet_" ++ challenge, w) ∧
    ("signet_" ++ challenge).length = 7 + challenge.length := by
  have hdef : challenge ≠ default_signet_challenge := by
    intro h
    rw [h, default_signet_challenge_length] at hshort
    omega
  have hget : w.gArgs.GetArg "-signetchallenge" "" = challenge := by
    simp [ArgsManager.GetArg, hset]
  refine ⟨hdef, ?_, signet_suffix_length challenge⟩
  rcases GetSignetDataDir_cases w challenge hget with ⟨hd, -⟩ | ⟨-, e⟩
  · rcases hd with h | h
    · exact absurd h hne
    · exact absurd h hdef
  · rw [e, take16_of_short challenge hshort]

/-- The three-character challenge "abc" gives "signet_abc". -/
theorem GetSignetDataDir_short_challenge_witness :
    GetSignetDataDir (World.initial (argsWithChallenge (some "abc")))
      = .ok ("signet_abc", World.initial (argsWithChallenge (some "abc"))) :=
  (GetSignetDataDir_short_challenge (World.initial (argsWithChallenge (some "abc")))
    "abc" rfl (by decide) (by decide)).2.1

/-! ## Shape of the directory name -/

/-- C15 (as stated, refuted): the challenge "ab/cd" makes
`CreateBaseChainParams(SIGNET)` return the data directory "signet_ab/cd",
which holds the path separator. -/
theorem signet_directory_with_separator :
    CreateBaseChainParams ChainType.SIGNET (World.initial (argsWithChallenge (some "ab/cd")))
      = .ok ({ data_directory := "signet_ab/cd", rpc_port := 38332 },
             World.initial (argsWithChallenge (some "ab/cd"))) ∧
    '/' ∈ ("signet_ab/cd" : String).data :=
  ⟨rfl, by decide⟩

/-- C15 (amended): the data directory returned by `CreateBaseChainParams`
holds a '/' exactly when the chain is signet and the challenge is custom
with a '/' among its first 16 characters; for the four other chains, and
for every challenge without '/' in its first 16 characters, it holds none. -/
theorem data_directory_separator_iff (chain : ChainType) (w : World) (c : String)
    (hc : w.gArgs.GetArg "-signetchallenge" "" = c) :
    ∃ p : CBaseChainParams, CreateBaseChainParams chain w = .ok (p, w) ∧
      ('/' ∈ p.data_directory.data ↔
        chain = ChainType.SIGNET ∧ c ≠ "" ∧ c ≠ default_signet_challenge ∧
          '/' ∈ (c.take 16).data) := by
  obtain ⟨p, hp, hcases⟩ := CreateBaseChainParams_cases chain w c hc
  refine ⟨p, hp, ?_⟩
  rcases hcases with ⟨rfl, rfl⟩ | ⟨rfl, rfl⟩ | ⟨rfl, rfl⟩ | ⟨rfl, rfl⟩ |
    ⟨rfl, -, ⟨hd, hdir⟩ | ⟨hn, hdir⟩⟩
  · exact ⟨fun h => absurd h (by decide), fun h => absurd h.1 (by decide)⟩
  · exact ⟨fun h => absurd h (by decide), fun h => absurd h.1 (by decide)⟩
  · exact ⟨fun h => absurd h (by decide), fun h => absurd h.1 (by decide)⟩
  · exact ⟨fun h => absurd h (by decide), fun h => absurd h.1 (by decide)⟩
  · rw [hdir]
    constructor
    · intro h
      exact absurd h (by decide)
    · rintro ⟨-, hne, hnd, -⟩
      rcases hd with h | h
      · exact absurd h hne
      · exact absurd h hnd
  · rw [hdir, String.data_append, List.mem_append]
    constructor
    · rintro (h | h)
      · exact absurd h (by decide)
      · exact ⟨rfl, hn.1, hn.2, h⟩
    · rintro ⟨-, -, -, h⟩
      exact Or.inr h

/-- A challenge whose separator comes after the sixteenth character: the
directory name "signet_0123456789abcdef" holds none. -/
theorem data_directory_separator_iff_witness :
    ∃ p : CBaseChainParams,
      CreateBaseChainParams ChainType.SIGNET
          (World.initial (argsWithChallenge (some "0123456789abcdef/x")))
        = .ok (p, World.initial (argsWithChallenge (some "0123456789abcdef/x"))) ∧
      ('/' ∈ p.data_directory.data ↔
        ChainType.SIGNET = ChainType.SIGNET ∧ ("0123456789abcdef/x" : String) ≠ "" ∧
          "0123456789abcdef/x" ≠ default_signet_challenge ∧
          '/' ∈ (("0123456789abcdef/x" : String).take 16).data) :=
  data_directory_separator_iff ChainType.SIGNET
    (World.initial (argsWithChallenge (some "0123456789abcdef/x")))
    "0123456789abcdef/x" rfl

/-- C16: the name returned by `GetSignetDataDir` starts with "signet", is
either "signet" or "signet_" followed by at most 16 characters, and so has
between 6 and 23 characters. -/
theorem GetSignetDataDir_short_name (w : World) :
    ∃ d : String, GetSignetDataDir w = .ok (d, w) ∧
      6 ≤ d.length ∧ d.length ≤ 23 ∧
      (∃ rest : String, d = "signet" ++ rest) ∧
      (d = "signet" ∨ ∃ suffix : String, d = "signet_" ++ suffix ∧ suffix.length ≤ 16) := by
  rcases GetSignetDataDir_cases w _ rfl with ⟨-, e⟩ | ⟨-, e⟩
  · exact ⟨_, e, by decide, by decide, ⟨"", rfl⟩, Or.inl rfl⟩
  · have hle := take16_length_le (w.gArgs.GetArg "-signetchallenge" "")
    refine ⟨_, e, ?_, ?_, ⟨"_" ++ (w.gArgs.GetArg "-signetchallenge" "").take 16, ?_⟩,
      Or.inr ⟨_, rfl, hle⟩⟩
    · rw [signet_suffix_length]; omega
    · rw [signet_suffix_length]; omega
    · rw [← String.append_assoc]
      rfl

/-- C17: `GetSignetDataDir` returns "signet" exactly when the challenge is
empty (or unset) or the default constant; for every other challenge the
name is not "signet": it is "signet_" followed by a suffix and has at least
8 characters. -/
theorem GetSignetDataDir_bare_iff (w : World) :
    ∃ d : String, GetSignetDataDir w = .ok (d, w) ∧
      (d = "signet" ↔
        (w.gArgs.GetArg "-signetchallenge" "" = "" ∨
          w.gArgs.GetArg "-signetchallenge" "" = default_signet_challenge)) ∧
      (((w.gArgs.GetArg "-signetchallenge" "" = "" ∨
          w.gArgs.GetArg "-signetchallenge" "" = default_signet_challenge) ∧
          d = "signet") ∨
       ((w.gArgs.GetArg "-signetchallenge" "" ≠ "" ∧
          w.gArgs.GetArg "-signetchallenge" "" ≠ default_signet_challenge) ∧
          d ≠ "signet" ∧ 8 ≤ d.length ∧ ∃ suffix : String, d = "signet_" ++ suffix)) := by
  rcases GetSignetDataDir_cases w _ rfl with ⟨hd, e⟩ | ⟨hn, e⟩
  · exact ⟨_, e, ⟨fun _ => hd, fun _ => rfl⟩, Or.inl ⟨hd, rfl⟩⟩
  · have hpos := take16_length_pos (w.gArgs.GetArg "-signetchallenge" "") hn.1
    refine ⟨_, e, ⟨fun h => absurd h (signet_suffix_ne_bare _), ?_⟩,
      Or.inr ⟨hn, signet_suffix_ne_bare _, ?_, _, rfl⟩⟩
    · rintro (h | h)
      · exact absurd h hn.1
      · exact absurd h hn.2
    · rw [signet_suffix_length]; omega

/-- C18: in one configuration, two different chains get records with
different data directories and different ports; the signet directory is
none of "", "testnet3", "testnet4", "regtest". -/
theorem CreateBaseChainParams_pairwise_distinct (w : World) (chain1 chain2 : ChainType)
    (hne : chain1 ≠ chain2) :
    (∃ p1 p2 : CBaseChainParams,
      CreateBaseChainParams chain1 w = .ok (p1, w) ∧
      CreateBaseChainParams chain2 w = .ok (p2, w) ∧
      p1.data_directory ≠ p2.data_directory ∧ p1.rpc_port ≠ p2.rpc_port) ∧
    (∃ d : String, GetSignetDataDir w = .ok (d, w) ∧
      d ≠ "" ∧ d ≠ "testnet3" ∧ d ≠ "testnet4" ∧ d ≠ "regtest") := by
  have hsig : ∃ d : String, GetSignetDataDir w = .ok (d, w) ∧ d.data.head? = some 's' := by
    rcases GetSignetDataDir_cases w _ rfl with ⟨-, e⟩ | ⟨-, e⟩
    · exact ⟨_, e, rfl⟩
    · exact ⟨_, e, signet_suffix_head _⟩
  have hrec : ∀ chain : ChainType, ∃ p : CBaseChainParams,
      CreateBaseChainParams chain w = .ok (p, w) ∧
      ((chain = ChainType.MAIN ∧ p = { data_directory := "", rpc_port := 8332 }) ∨
       (chain = ChainType.TESTNET ∧ p = { data_directory := "testnet3", rpc_port := 18332 }) ∨
       (chain = ChainType.TESTNET4 ∧ p = { data_directory := "testnet4", rpc_port := 48332 }) ∨
       (chain = ChainType.REGTEST ∧ p = { data_directory := "regtest", rpc_port := 18443 }) ∨
       (chain = ChainType.SIGNET ∧ p.rpc_port = 38332 ∧
         p.data_directory.data.head? = some 's')) := by
    intro chain
    obtain ⟨p, hp, hcases⟩ := CreateBaseChainParams_cases chain w _ rfl
    refine ⟨p, hp, ?_⟩
    rcases hcases with h | h | h | h | ⟨hch, hport, ⟨-, hdir⟩ | ⟨-, hdir⟩⟩
    · exact Or.inl h
    · exact Or.inr (Or.inl h)
    · exact Or.inr (Or.inr (Or.inl h))
    · exact Or.inr (Or.inr (Or.inr (Or.inl h)))
    · exact Or.inr (Or.inr (Or.inr (Or.inr ⟨hch, hport, by rw [hdir]; rfl⟩)))
    · exact Or.inr (Or.inr (Or.inr (Or.inr
        ⟨hch, hport, by rw [hdir]; exact signet_suffix_head _⟩)))
  constructor
  · obtain ⟨p1, hp1, h1⟩ := hrec chain1
    obtain ⟨p2, hp2, h2⟩ := hrec chain2
    refine ⟨p1, p2, hp1, hp2, ?_⟩
    rcases h1 with ⟨rfl, rfl⟩ | ⟨rfl, rfl⟩ | ⟨rfl, rfl⟩ | ⟨rfl, rfl⟩ | ⟨rfl, hport1, hhead1⟩ <;>
    rcases h2 with ⟨rfl, rfl⟩ | ⟨rfl, rfl⟩ | ⟨rfl, rfl⟩ | ⟨rfl, rfl⟩ | ⟨rfl, hport2, hhead2⟩
    all_goals first
      | exact absurd rfl hne
      | exact ⟨by decide, by decide⟩
      | exact ⟨fun h => by rw [h] at hhead1; exact absurd hhead1 (by decide),
               by rw [hport1]; decide⟩
      | exact ⟨fun h => by rw [← h] at hhead2; exact absurd hhead2 (by decide),
               by rw [hport2]; decide⟩
  · obtain ⟨d, hd, hhead⟩ := hsig
    refine ⟨d, hd, ?_, ?_, ?_, ?_⟩ <;>
    · intro h
      rw [h] at hhead
      exact absurd hhead (by decide)

/-- Signet with a custom challenge against regtest: "signet_ab/cd" and
"regtest", 38332 and 18443. -/
theorem CreateBaseChainParams_pairwise_distinct_witness :
    ∃ p1 p2 : CBaseChainParams,
      CreateBaseChainParams ChainType.SIGNET (World.initial (argsWithChallenge (some "ab/cd")))
        = .ok (p1, World.initial (argsWithChallenge (some "ab/cd"))) ∧
      CreateBaseChainParams ChainType.REGTEST (World.initial (argsWithChallenge (some "ab/cd")))
        = .ok (p2, World.initial (argsWithChallenge (some "ab/cd"))) ∧
      p1.data_directory ≠ p2.data_directory ∧ p1.rpc_port ≠ p2.rpc_port :=
  (CreateBaseChainParams_pairwise_distinct (World.initial (argsWithChallenge (some "ab/cd")))
    ChainType.SIGNET ChainType.REGTEST (by decide)).1

end ChainParamsBase
